import Mathlib

/-!
Verification of the clang-format-rs wrapper library (src/lib.rs).

The library exposes a style enum `ClangFormatStyle` with a rendering
function `as_str`, an error enum `ClangFormatError`, and two entry points
`clang_format_with_style` / `clang_format` that spawn an external
clang-format process, write the input to its stdin, wait for it to
terminate, and decode the collected stdout bytes as UTF-8.

The operating-system interaction is modelled by an explicit `Exec` record
describing the outcome of each OS step (whether the spawn succeeds, whether
the stdin handle is available, whether the write and the wait succeed, the
bytes the child wrote to stdout, and the exit code of the child).  The
function is embedded as `clangFormatWithStyleT`, which follows the control
flow of the Rust source line by line and additionally records the trace of
OS events it performs, so that ordering properties (input written and stdin
closed before the wait) are statable.  `String::from_utf8` is embedded as a
full strict UTF-8 decoder `string_from_utf8`.
-/

/-- Embeds the Rust enum `ClangFormatStyle` from src/lib.rs. -/
inductive ClangFormatStyle where
  | Chromium
  | Default
  | File
  | GNU
  | Google
  | Llvm
  | Microsoft
  | Mozilla
  | WebKit
  | Custom (custom : String)
deriving DecidableEq

namespace ClangFormatStyle

/-- Embeds `ClangFormatStyle::as_str` from src/lib.rs: converts the enum to
the string that clang-format expects. -/
def as_str : ClangFormatStyle → String
  | Chromium => "Chromium"
  | Default => "\x7b\x7d"
  | File => "file"
  | GNU => "GNU"
  | Google => "Google"
  | Llvm => "LLVM"
  | Microsoft => "Microsoft"
  | Mozilla => "Mozilla"
  | WebKit => "WebKit"
  | Custom custom => custom

end ClangFormatStyle

/-- Embeds the Rust enum `ClangFormatError` from src/lib.rs. -/
inductive ClangFormatError where
  | SpawnFailure
  | StdInFailure
  | StdInWriteFailure
  | Utf8FormatError
  | WaitFailure
deriving DecidableEq

/-- Models the result of `std::env::var("CLANG_FORMAT_BINARY")`: the
variable is present with a Unicode value, absent, or present but not valid
Unicode (the two constructors of `std::env::VarError`). -/
inductive EnvLookup where
  | ok (v : String)
  | notPresent
  | notUnicode
deriving DecidableEq

/-- Embeds the binary-name resolution on line 125 of src/lib.rs:
`env::var("CLANG_FORMAT_BINARY").unwrap_or("clang-format".to_string())`. -/
def clang_binary : EnvLookup → String
  | EnvLookup.ok v => v
  | EnvLookup.notPresent => "clang-format"
  | EnvLookup.notUnicode => "clang-format"

/-- Embeds the argument list built on line 127 of src/lib.rs: a single
argument `format!("--style=\x7b\x7d", style.as_str())`. -/
def styleArgs (style : ClangFormatStyle) : List String :=
  ["--style=" ++ style.as_str]

/-- True when a byte is a UTF-8 continuation byte (0x80..=0xBF). -/
def isCont (b : Nat) : Bool :=
  0x80 ≤ b && b < 0xC0

/-- Strict UTF-8 decoding of a byte list, following the validation
performed by Rust `String::from_utf8` (core::str): rejects continuation
bytes in lead position, overlong encodings, surrogate code points and
code points above 0x10FFFF. -/
def utf8Decode : List Nat → Option (List Char)
  | [] => some []
  | b0 :: bs =>
    if b0 < 0x80 then
      (utf8Decode bs).map fun cs => Char.ofNat b0 :: cs
    else if b0 < 0xC2 then
      none
    else if b0 < 0xE0 then
      match bs with
      | b1 :: bs2 =>
        if isCont b1 then
          (utf8Decode bs2).map fun cs =>
            Char.ofNat ((b0 % 0x20) * 0x40 + b1 % 0x40) :: cs
        else none
      | [] => none
    else if b0 < 0xF0 then
      match bs with
      | b1 :: b2 :: bs3 =>
        if (if b0 = 0xE0 then decide (0xA0 ≤ b1) && decide (b1 < 0xC0)
            else if b0 = 0xED then decide (0x80 ≤ b1) && decide (b1 < 0xA0)
            else isCont b1) && isCont b2 then
          (utf8Decode bs3).map fun cs =>
            Char.ofNat ((b0 % 0x10) * 0x1000 + (b1 % 0x40) * 0x40 + b2 % 0x40) :: cs
        else none
      | _ => none
    else if b0 < 0xF5 then
      match bs with
      | b1 :: b2 :: b3 :: bs4 =>
        if (if b0 = 0xF0 then decide (0x90 ≤ b1) && decide (b1 < 0xC0)
            else if b0 = 0xF4 then decide (0x80 ≤ b1) && decide (b1 < 0x90)
            else isCont b1) && isCont b2 && isCont b3 then
          (utf8Decode bs4).map fun cs =>
            Char.ofNat
              ((b0 % 8) * 0x40000 + (b1 % 0x40) * 0x1000 +
                (b2 % 0x40) * 0x40 + b3 % 0x40) :: cs
        else none
      | _ => none
    else none

/-- Embeds `String::from_utf8` as used on line 150 of src/lib.rs: `some`
of the decoded string when the bytes are valid UTF-8, otherwise `none`. -/
def string_from_utf8 (bs : List Nat) : Option String :=
  (utf8Decode bs).map String.mk

/-- Models the environment of one invocation: the state of the
`CLANG_FORMAT_BINARY` variable and the outcome of each OS interaction the
function performs. -/
structure Exec where
  env : EnvLookup
  spawnOk : Bool
  stdinAvailable : Bool
  writeOk : Bool
  waitOk : Bool
  stdoutBytes : List Nat
  exitCode : Int
deriving DecidableEq

/-- OS events performed by `clang_format_with_style`, in order: the spawn
attempt of the program with its argument list, taking the stdin handle,
writing the given input text to stdin, the stdin handle being dropped
(closing the pipe), and the blocking wait for termination with output. -/
inductive Event where
  | spawn (prog : String) (args : List String)
  | takeStdin
  | writeStdin (input : String)
  | closeStdin
  | wait
deriving DecidableEq

/-- Embeds `clang_format_with_style` (lines 120..161 of src/lib.rs),
instrumented with the trace of OS events it performs.  The Rust control
flow is followed branch by branch: spawn failure returns `SpawnFailure`;
a missing stdin handle returns `StdInFailure`; a failed write returns
`StdInWriteFailure` (stdin is dropped at the early return); otherwise
stdin leaves scope (closing the pipe) before `wait_with_output` is called;
a failed wait returns `WaitFailure`; finally the stdout bytes are decoded,
yielding the string or `Utf8FormatError`. -/
def clangFormatWithStyleT (input : String) (style : ClangFormatStyle)
    (w : Exec) : Except ClangFormatError String × List Event :=
  let prog := clang_binary w.env
  let args := styleArgs style
  if w.spawnOk then
    if w.stdinAvailable then
      if w.writeOk then
        if w.waitOk then
          match string_from_utf8 w.stdoutBytes with
          | some stdout =>
            (Except.ok stdout,
              [Event.spawn prog args, Event.takeStdin, Event.writeStdin input,
                Event.closeStdin, Event.wait])
          | none =>
            (Except.error ClangFormatError.Utf8FormatError,
              [Event.spawn prog args, Event.takeStdin, Event.writeStdin input,
                Event.closeStdin, Event.wait])
        else
          (Except.error ClangFormatError.WaitFailure,
            [Event.spawn prog args, Event.takeStdin, Event.writeStdin input,
              Event.closeStdin, Event.wait])
      else
        (Except.error ClangFormatError.StdInWriteFailure,
          [Event.spawn prog args, Event.takeStdin, Event.closeStdin])
    else
      (Except.error ClangFormatError.StdInFailure,
        [Event.spawn prog args, Event.takeStdin])
  else
    (Except.error ClangFormatError.SpawnFailure, [Event.spawn prog args])

/-- Embeds the public function `clang_format_with_style`: the result of
the instrumented embedding, forgetting the event trace. -/
def clang_format_with_style (input : String) (style : ClangFormatStyle)
    (w : Exec) : Except ClangFormatError String :=
  (clangFormatWithStyleT input style w).1

/-- Embeds `clang_format` (lines 182..184 of src/lib.rs): delegates to
`clang_format_with_style` with `ClangFormatStyle::Default`. -/
def clang_format (input : String) (w : Exec) :
    Except ClangFormatError String :=
  clang_format_with_style input ClangFormatStyle.Default w

/-- Helper: the event trace of an invocation depends only on which OS steps
succeed, and is the obvious prefix of the full trace in every case. -/
theorem trace_eq (input : String) (style : ClangFormatStyle) (w : Exec) :
    (clangFormatWithStyleT input style w).2 =
      if w.spawnOk then
        if w.stdinAvailable then
          if w.writeOk then
            [Event.spawn (clang_binary w.env) (styleArgs style),
              Event.takeStdin, Event.writeStdin input, Event.closeStdin,
              Event.wait]
          else
            [Event.spawn (clang_binary w.env) (styleArgs style),
              Event.takeStdin, Event.closeStdin]
        else
          [Event.spawn (clang_binary w.env) (styleArgs style),
            Event.takeStdin]
      else
        [Event.spawn (clang_binary w.env) (styleArgs style)] := by
  obtain ⟨env, sp, st, wr, wa, bytes, ec⟩ := w
  cases sp <;> cases st <;> cases wr <;> cases wa <;>
    simp only [clangFormatWithStyleT, if_true, if_false] <;>
    rcases h : string_from_utf8 bytes with _ | s <;> simp [h]

/-- Claim C1: clang_format_with_style maps each failure to exactly one
typed error variant, iff-style: SpawnFailure iff the spawn fails,
StdInFailure iff the stdin handle is missing after a successful spawn,
StdInWriteFailure iff the write to stdin fails, WaitFailure iff the wait
fails, Utf8FormatError iff the collected stdout bytes are not valid UTF-8;
every failure surfaces to the immediate caller as one of these variants. -/
theorem claim_C1 (input : String) (style : ClangFormatStyle) (w : Exec) :
    (clang_format_with_style input style w =
        Except.error ClangFormatError.SpawnFailure ↔ w.spawnOk = false)
  ∧ (clang_format_with_style input style w =
        Except.error ClangFormatError.StdInFailure ↔
      w.spawnOk = true ∧ w.stdinAvailable = false)
  ∧ (clang_format_with_style input style w =
        Except.error ClangFormatError.StdInWriteFailure ↔
      w.spawnOk = true ∧ w.stdinAvailable = true ∧ w.writeOk = false)
  ∧ (clang_format_with_style input style w =
        Except.error ClangFormatError.WaitFailure ↔
      w.spawnOk = true ∧ w.stdinAvailable = true ∧ w.writeOk = true ∧
        w.waitOk = false)
  ∧ (clang_format_with_style input style w =
        Except.error ClangFormatError.Utf8FormatError ↔
      w.spawnOk = true ∧ w.stdinAvailable = true ∧ w.writeOk = true ∧
        w.waitOk = true ∧ string_from_utf8 w.stdoutBytes = none) := by
  obtain ⟨env, sp, st, wr, wa, bytes, ec⟩ := w
  cases sp <;> cases st <;> cases wr <;> cases wa <;>
    simp only [clang_format_with_style, clangFormatWithStyleT,
      if_true, if_false] <;>
    rcases h : string_from_utf8 bytes with _ | s <;> simp [h]

/-- Claim C2: whenever the spawn, the stdin write and the wait succeed and
the stdout bytes decode as UTF-8, the function returns Ok with the decoded
output for every exit code of the child (the exit status is never
inspected), and the error type has no NonZeroExit variant: its only
variants are the five listed ones. -/
theorem claim_C2 :
    (∀ (input : String) (style : ClangFormatStyle) (w : Exec) (s : String)
        (ec : Int),
      w.spawnOk = true → w.stdinAvailable = true → w.writeOk = true →
      w.waitOk = true → string_from_utf8 w.stdoutBytes = some s →
      clang_format_with_style input style { w with exitCode := ec } =
        Except.ok s)
  ∧ (∀ e : ClangFormatError,
      e = ClangFormatError.SpawnFailure ∨ e = ClangFormatError.StdInFailure ∨
      e = ClangFormatError.StdInWriteFailure ∨
      e = ClangFormatError.Utf8FormatError ∨
      e = ClangFormatError.WaitFailure) := by
  constructor
  · intro input style w s ec h1 h2 h3 h4 h5
    obtain ⟨env, sp, st, wr, wa, bytes, e0⟩ := w
    simp only at h1 h2 h3 h4 h5
    subst h1 h2 h3 h4
    simp [clang_format_with_style, clangFormatWithStyleT, h5]
  · intro e
    cases e <;> simp

/-- Claim C2 witness: a concrete run with nonzero exit code 5, all OS
steps succeeding and stdout bytes [97], returns Ok "a". -/
theorem claim_C2_witness :
    clang_format_with_style "x" ClangFormatStyle.Default
      ⟨EnvLookup.notPresent, true, true, true, true, [97], 5⟩ =
      Except.ok "a" :=
  claim_C2.1 "x" ClangFormatStyle.Default
    ⟨EnvLookup.notPresent, true, true, true, true, [97], 0⟩ "a" 5
    rfl rfl rfl rfl rfl

/-- Claim C3: as_str renders each preset variant to its fixed string, with
Default rendered as the empty-options object; as a Lean function it is
pure, total and deterministic by construction. -/
theorem claim_C3 :
    ClangFormatStyle.Chromium.as_str = "Chromium"
  ∧ ClangFormatStyle.Default.as_str = "\x7b\x7d"
  ∧ ClangFormatStyle.File.as_str = "file"
  ∧ ClangFormatStyle.GNU.as_str = "GNU"
  ∧ ClangFormatStyle.Google.as_str = "Google"
  ∧ ClangFormatStyle.Llvm.as_str = "LLVM"
  ∧ ClangFormatStyle.Microsoft.as_str = "Microsoft"
  ∧ ClangFormatStyle.Mozilla.as_str = "Mozilla"
  ∧ ClangFormatStyle.WebKit.as_str = "WebKit" :=
  ⟨rfl, rfl, rfl, rfl, rfl, rfl, rfl, rfl, rfl⟩

/-- Claim C4: rendering a Custom style is the identity on the carried
string; no validation, escaping or normalization is applied. -/
theorem claim_C4 (t : String) : (ClangFormatStyle.Custom t).as_str = t :=
  rfl

/-- Claim C5: for every style the argument list passed to the external
binary has at most one element, and it is exactly the single string
"--style=" concatenated with as_str of the style. -/
theorem claim_C5 (style : ClangFormatStyle) :
    styleArgs style = ["--style=" ++ style.as_str]
  ∧ (styleArgs style).length ≤ 1 :=
  ⟨rfl, Nat.le_refl 1⟩

/-- Claim C6: clang_format delegates to clang_format_with_style with the
Default style: for every input and environment the results coincide. -/
theorem claim_C6 (input : String) (w : Exec) :
    clang_format input w =
      clang_format_with_style input ClangFormatStyle.Default w :=
  rfl

/-- Claim C7: on a run where spawn, write and wait all succeed, the
function returns Ok s exactly when s is the UTF-8 decoding of the complete
stdout byte sequence; no other transformation is applied. -/
theorem claim_C7 (input : String) (style : ClangFormatStyle) (w : Exec)
    (s : String) (h1 : w.spawnOk = true) (h2 : w.stdinAvailable = true)
    (h3 : w.writeOk = true) (h4 : w.waitOk = true) :
    clang_format_with_style input style w = Except.ok s ↔
      string_from_utf8 w.stdoutBytes = some s := by
  obtain ⟨env, sp, st, wr, wa, bytes, ec⟩ := w
  simp only at h1 h2 h3 h4
  subst h1 h2 h3 h4
  simp only [clang_format_with_style, clangFormatWithStyleT, if_true]
  rcases h : string_from_utf8 bytes with _ | t <;> simp [h]

/-- Claim C7 witness: a concrete successful run with stdout bytes
[104, 105] returns Ok "hi", obtained from claim_C7 by evaluating the
decoder. -/
theorem claim_C7_witness :
    clang_format_with_style "x" ClangFormatStyle.Mozilla
      ⟨EnvLookup.notPresent, true, true, true, true, [104, 105], 0⟩ =
      Except.ok "hi" :=
  (claim_C7 "x" ClangFormatStyle.Mozilla
    ⟨EnvLookup.notPresent, true, true, true, true, [104, 105], 0⟩ "hi"
    rfl rfl rfl rfl).mpr rfl

/-- Claim C8: on every call the first OS event is the spawn of the program
resolved from the environment of that call — the value of
CLANG_FORMAT_BINARY when it is set and readable, the fixed default
"clang-format" when it is absent — so the lookup is performed on each call
with no caching. -/
theorem claim_C8 (input : String) (style : ClangFormatStyle) (w : Exec) :
    (clangFormatWithStyleT input style w).2.head? =
      some (Event.spawn (clang_binary w.env) (styleArgs style))
  ∧ (∀ v, clang_binary (EnvLookup.ok v) = v)
  ∧ clang_binary EnvLookup.notPresent = "clang-format" := by
  refine ⟨?_, fun v => rfl, rfl⟩
  rw [trace_eq]
  rcases w.spawnOk <;> rcases w.stdinAvailable <;> rcases w.writeOk <;> simp

/-- Claim C9: in every execution that reaches the wait step, the trace
begins with the spawn, the taking of stdin, the write of the full input
text and the close of stdin, strictly before the wait event: the wait is
never entered while the input channel is still open. -/
theorem claim_C9 (input : String) (style : ClangFormatStyle) (w : Exec)
    (h : Event.wait ∈ (clangFormatWithStyleT input style w).2) :
    ∃ rest, (clangFormatWithStyleT input style w).2 =
      Event.spawn (clang_binary w.env) (styleArgs style) :: Event.takeStdin ::
        Event.writeStdin input :: Event.closeStdin :: Event.wait :: rest := by
  rw [trace_eq] at h ⊢
  rcases hsp : w.spawnOk <;> rcases hst : w.stdinAvailable <;>
    rcases hwr : w.writeOk <;> simp [hsp, hst, hwr] at h ⊢

/-- Claim C9 witness: a concrete run that reaches the wait step has the
write and close of stdin before the wait in its trace. -/
theorem claim_C9_witness :
    ∃ rest,
      (clangFormatWithStyleT "x" ClangFormatStyle.Default
        ⟨EnvLookup.notPresent, true, true, true, true, [97], 0⟩).2 =
      Event.spawn "clang-format" (styleArgs ClangFormatStyle.Default) ::
        Event.takeStdin :: Event.writeStdin "x" :: Event.closeStdin ::
        Event.wait :: rest :=
  claim_C9 "x" ClangFormatStyle.Default
    ⟨EnvLookup.notPresent, true, true, true, true, [97], 0⟩ (by decide)

/-- Claim C10: when CLANG_FORMAT_BINARY is set to a value that is not
valid Unicode, the resolution silently falls back to the default name
"clang-format", exactly as when the variable is absent, and the spawn uses
that default; no error is reported. -/
theorem claim_C10 :
    clang_binary EnvLookup.notUnicode = "clang-format"
  ∧ (∀ (input : String) (style : ClangFormatStyle) (w : Exec),
      (clangFormatWithStyleT input style
          { w with env := EnvLookup.notUnicode }).2.head? =
        some (Event.spawn "clang-format" (styleArgs style))) := by
  refine ⟨rfl, ?_⟩
  intro input style w
  rw [trace_eq]
  rcases w.spawnOk <;> rcases w.stdinAvailable <;> rcases w.writeOk <;>
    simp [clang_binary]
